import Mathlib

/-!
Verification development for the CareFund risk-scoring and data-aggregation
pipeline.  JavaScript numbers are modelled as exact rationals (`ℚ`); the
thresholds and arithmetic in the source are all decimal-exact, so no result
here depends on binary floating-point rounding.  `Math.round` is embedded as
`jsRound` (round half toward positive infinity, as in JavaScript).
-/

namespace CareFund

/-- JavaScript `Math.round`: round half toward positive infinity. -/
def jsRound (q : ℚ) : ℤ := Int.floor (q + 1 / 2)

/-! ## Risk calculator (`src/lib/services/risk-calculator.ts`) -/

/-- The `"low" | "medium" | "high" | "critical"` string-literal union. -/
inductive RiskLevel where
  | low | medium | high | critical
deriving DecidableEq

structure RiskFactor where
  category : String
  level : RiskLevel
  description : String
  impact : ℚ
deriving DecidableEq

/-- Fields of `userProfile` read by the risk calculator. -/
structure UserProfile where
  occupation : String
  city : String
  workShift : String
  healthCondition : String
  addictions : String
  pastSurgery : String
  age : ℚ
deriving DecidableEq

/-- Fields of `environmentalData` read by the risk calculator.  Optional
fields (`seasonalRisks`, `weatherCondition`) are `Option`; in the source a
missing field is `undefined` (falsy). -/
structure EnvironmentalInput where
  aqi : ℚ
  seasonalRisks : Option (List String)
  weatherCondition : Option String
deriving DecidableEq

structure StatisticalInput where
  ageAdjustedDeathRate : Option ℚ
  violentCrimeRate : Option ℚ
  safetyIndex : Option ℚ
  cityHealthIndex : ℚ
deriving DecidableEq

structure OccupationHazardInput where
  riskScore : ℚ
  hazardLevel : String
  deathRate : ℚ
deriving DecidableEq

structure CityStatsInput where
  crimeRate : ℚ
deriving DecidableEq

structure RiskCalculationInput where
  userProfile : UserProfile
  environmentalData : EnvironmentalInput
  statisticalData : StatisticalInput
  occupationHazard : OccupationHazardInput
  cityStats : CityStatsInput
deriving DecidableEq

/-- Modelled from the spec: the `crime-statistics` module (exporting
`calculateCrimeStressImpact`) is not under `src/`; only its callers are.
The spec describes crime stress as "derived from crimeRate via a monotonic
lookup, capped at 10".  We model it as a nonnegative monotonic function of
the crime rate, capped at 10. -/
def calculateCrimeStressImpact (crimeRate : ℚ) : ℚ :=
  min (max crimeRate 0 / 200) 10

/-- Source block 2 of `calculateRiskScore`: "Age factor (0-20 points)". -/
def agePoints (age : ℚ) : ℚ :=
  if age > 60 then 20
  else if age > 50 then 15
  else if age > 40 then 10
  else if age > 30 then 5
  else 0

/-- Source block 2 (continued): `if (input.statisticalData.ageAdjustedDeathRate)`
(JavaScript truthiness: `undefined` and `0` skip the branch) then add
`Math.min((rate / 20) * 5, 5)`. -/
def ageDeathRatePoints : Option ℚ → ℚ
  | some r => if r ≠ 0 then min (r / 20 * 5) 5 else 0
  | none => 0

/-- Source block 3: "Environmental factors (0-25 points)" from AQI. -/
def aqiPoints (aqi : ℚ) : ℚ :=
  if aqi > 200 then 25
  else if aqi > 150 then 20
  else if aqi > 100 then 15
  else if aqi > 50 then 10
  else 5

/-- Source block 3 (continued): `if (seasonalRisks && seasonalRisks.length > 0)`
add `Math.min(length * 2, 5)`. -/
def seasonalRiskPoints : Option (List String) → ℚ
  | some l => if 0 < l.length then min ((l.length : ℚ) * 2) 5 else 0
  | none => 0

/-- Source block 4: "Occupation hazard (0-20 points)":
`Math.round(occupationRisk * 0.2)` added to the (float) accumulator. -/
def occupationPoints (riskScore : ℚ) : ℚ :=
  (jsRound (riskScore * (1 / 5)) : ℚ)

/-- The repeated source test `x !== "None" && x !== ""`. -/
def presentStr (s : String) : Bool :=
  s != "None" && s != ""

/-- Source block 8: "Work shift impact (0-5 points)". -/
def workShiftPoints (workShift : String) : ℚ :=
  if workShift = "Night Shift" then 5
  else if workShift = "Rotating Shift" then 3
  else 0

/-- Source block 9 (continued): `if (violentCrimeRate && violentCrimeRate > 30)`
add `Math.min(rate / 10, 5)`. -/
def violentCrimePoints : Option ℚ → ℚ
  | some v => if v ≠ 0 ∧ v > 30 then min (v / 10) 5 else 0
  | none => 0

/-- Source block 10: "Safety index impact (0-5 points)";
`safetyIndex` is truthiness-guarded in both branches. -/
def safetyIndexPoints : Option ℚ → ℚ
  | some s => if s ≠ 0 ∧ s < 60 then 5 else if s ≠ 0 ∧ s < 70 then 3 else 0
  | none => 0

/-- The rational accumulator of `calculateRiskScore` just before
`Math.min(Math.round(score), 100)`: base 10 plus source blocks 2-10 in
order. -/
def riskScoreSum (input : RiskCalculationInput) : ℚ :=
  10
  + agePoints input.userProfile.age
  + ageDeathRatePoints input.statisticalData.ageAdjustedDeathRate
  + aqiPoints input.environmentalData.aqi
  + seasonalRiskPoints input.environmentalData.seasonalRisks
  + occupationPoints input.occupationHazard.riskScore
  + (if presentStr input.userProfile.healthCondition then 15 else 0)
  + (if presentStr input.userProfile.addictions then 10 else 0)
  + (if presentStr input.userProfile.pastSurgery then 5 else 0)
  + workShiftPoints input.userProfile.workShift
  + min (calculateCrimeStressImpact input.cityStats.crimeRate) 10
  + violentCrimePoints input.statisticalData.violentCrimeRate
  + safetyIndexPoints input.statisticalData.safetyIndex

/-- `calculateRiskScore` from `risk-calculator.ts`:
`return Math.min(Math.round(score), 100)`. -/
def calculateRiskScore (input : RiskCalculationInput) : ℤ :=
  min (jsRound (riskScoreSum input)) 100

/-- `getRiskLevel` from `risk-calculator.ts`. -/
def getRiskLevel (score : ℤ) : RiskLevel :=
  if score ≥ 80 then .critical
  else if score ≥ 60 then .high
  else if score ≥ 40 then .medium
  else .low

/-! ## City health index (`src/lib/services/data-collector.ts`) -/

/-- "AQI impact (0-50 points deduction)" of `calculateCityHealthIndex`. -/
def aqiDeduction (aqi : ℚ) : ℚ :=
  if aqi > 200 then 50
  else if aqi > 150 then 35
  else if aqi > 100 then 20
  else if aqi > 50 then 10
  else 0

/-- "Crime rate impact (0-30 points deduction)" of `calculateCityHealthIndex`. -/
def crimeRateDeduction (crimeRate : ℚ) : ℚ :=
  if crimeRate > 1000 then 30
  else if crimeRate > 500 then 20
  else if crimeRate > 300 then 10
  else if crimeRate > 150 then 5
  else 0

/-- "Temperature extremes (0-20 points deduction)" of `calculateCityHealthIndex`. -/
def temperatureDeduction (temperature : ℚ) : ℚ :=
  if temperature > 40 ∨ temperature < 10 then 20
  else if temperature > 35 ∨ temperature < 15 then 10
  else 0

/-- `calculateCityHealthIndex`: start at 100, apply the three deductions in
order, then `Math.max(index, 0)`. -/
def calculateCityHealthIndex (aqi crimeRate temperature : ℚ) : ℚ :=
  max (100 - aqiDeduction aqi - crimeRateDeduction crimeRate
    - temperatureDeduction temperature) 0

/-! ## Risk-factor generation (`risk-calculator.ts`, `generateRiskFactors`)

Descriptions interpolate numbers with `toString`; the exact decimal
rendering of JavaScript (`${x}`, `.toFixed(1)`) is abstracted, which no
claim depends on. -/

/-- The air-quality factor pushed when `aqi > 100` (the source pushes
nothing for `aqi ≤ 100`). -/
def airQualityFactors (input : RiskCalculationInput) : List RiskFactor :=
  let aqi := input.environmentalData.aqi
  let wc := (input.environmentalData.weatherCondition).getD ""
  let suffix := if wc ≠ "" then " (Current: " ++ wc ++ ")" else ""
  if aqi > 150 then
    [{ category := "Air Quality"
       level := if aqi > 200 then .critical else .high
       description := "AQI of " ++ toString aqi
         ++ " poses significant respiratory health risks" ++ suffix
       impact := if aqi > 200 then 25 else 20 }]
  else if aqi > 100 then
    [{ category := "Air Quality"
       level := .medium
       description := "AQI of " ++ toString aqi
         ++ " may affect sensitive individuals" ++ suffix
       impact := 15 }]
  else []

def seasonalFactors (input : RiskCalculationInput) : List RiskFactor :=
  match input.environmentalData.seasonalRisks with
  | some l =>
      if 0 < l.length then
        [{ category := "Seasonal Health Risks"
           level := if l.length > 2 then .high else .medium
           description := String.intercalate "; " l
           impact := (l.length : ℚ) * 2 }]
      else []
  | none => []

def occupationFactors (input : RiskCalculationInput) : List RiskFactor :=
  let oh := input.occupationHazard
  if oh.hazardLevel = "critical" ∨ oh.hazardLevel = "high" then
    [{ category := "Occupational Hazard"
       level := if oh.hazardLevel = "critical" then .critical else .high
       description := input.userProfile.occupation ++ " has " ++ oh.hazardLevel
         ++ " risk level with death rate of " ++ toString oh.deathRate
         ++ " per 100,000 workers"
       impact := oh.riskScore * (1 / 5) }]
  else []

def ageFactors (input : RiskCalculationInput) : List RiskFactor :=
  let age := input.userProfile.age
  if age > 50 then
    [{ category := "Age Factor"
       level := if age > 60 then .high else .medium
       description := "Age " ++ toString age
         ++ " increases susceptibility to health conditions"
       impact := if age > 60 then 20 else 15 }]
  else []

def healthConditionFactors (input : RiskCalculationInput) : List RiskFactor :=
  if presentStr input.userProfile.healthCondition then
    [{ category := "Pre-existing Condition"
       level := .high
       description := "Existing health condition: "
         ++ input.userProfile.healthCondition
       impact := 15 }]
  else []

def lifestyleFactors (input : RiskCalculationInput) : List RiskFactor :=
  if presentStr input.userProfile.addictions then
    [{ category := "Lifestyle Risk"
       level := .medium
       description := "Addiction to " ++ input.userProfile.addictions
         ++ " increases health risks"
       impact := 10 }]
  else []

def workScheduleFactors (input : RiskCalculationInput) : List RiskFactor :=
  if input.userProfile.workShift = "Night Shift" then
    [{ category := "Work Schedule"
       level := .medium
       description :=
         "Night shift work disrupts circadian rhythm and increases health risks"
       impact := 5 }]
  else []

def crimeStressFactors (input : RiskCalculationInput) : List RiskFactor :=
  let cr := input.cityStats.crimeRate
  if cr > 500 then
    let violentInfo := match input.statisticalData.violentCrimeRate with
      | some v =>
          if v ≠ 0 then " including " ++ toString v ++ " violent crimes per 100k"
          else ""
      | none => ""
    [{ category := "Environmental Stress"
       level := if cr > 1000 then .high else .medium
       description := "High crime rate (" ++ toString cr ++ " per 100k"
         ++ violentInfo ++ ") contributes to chronic stress"
       impact := calculateCrimeStressImpact cr }]
  else []

def citySafetyFactors (input : RiskCalculationInput) : List RiskFactor :=
  match input.statisticalData.safetyIndex with
  | some s =>
      if s ≠ 0 ∧ s < 60 then
        [{ category := "City Safety"
           level := if s < 50 then .high else .medium
           description := "Low safety index (" ++ toString s
             ++ "/100) indicates higher security concerns"
           impact := 5 }]
      else []
  | none => []

def cityHealthFactors (input : RiskCalculationInput) : List RiskFactor :=
  let chi := input.statisticalData.cityHealthIndex
  if chi < 60 then
    [{ category := "City Health Infrastructure"
       level := if chi < 40 then .high else .medium
       description := "City health index of " ++ toString chi
         ++ "/100 indicates limited healthcare access"
       impact := 10 }]
  else []

/-- The `factors` array of `generateRiskFactors` in push order, before the
final sort. -/
def rawRiskFactors (input : RiskCalculationInput) : List RiskFactor :=
  airQualityFactors input ++ seasonalFactors input ++ occupationFactors input
    ++ ageFactors input ++ healthConditionFactors input
    ++ lifestyleFactors input ++ workScheduleFactors input
    ++ crimeStressFactors input ++ citySafetyFactors input
    ++ cityHealthFactors input

/-- One step of a stable insertion sort, descending by `impact`:
an element is placed before the first element whose impact is not greater,
so earlier-pushed elements stay first among equal impacts. -/
def insertDesc (x : RiskFactor) : List RiskFactor → List RiskFactor
  | [] => [x]
  | y :: ys => if x.impact < y.impact then y :: insertDesc x ys else x :: y :: ys

/-- Stable sort descending by `impact`: the embedding of
`factors.sort((a, b) => b.impact - a.impact)` (ECMAScript sorts are
stable). -/
def sortByImpactDesc (l : List RiskFactor) : List RiskFactor :=
  l.foldr insertDesc []

/-- `generateRiskFactors`: build the factor list, then
`factors.sort((a, b) => b.impact - a.impact)`. -/
def generateRiskFactors (input : RiskCalculationInput) : List RiskFactor :=
  sortByImpactDesc (rawRiskFactors input)

/-! ## Financial planner (`dashboard/analysis` page) -/

structure InsurancePlan where
  name : String
  coverage : ℚ
  premium : ℚ
deriving DecidableEq

/-- `getInsurancePlan` from the analysis page. -/
def getInsurancePlan (riskScore : ℚ) : InsurancePlan :=
  if riskScore > 70 then ⟨"Premium Health Shield", 1000000, 8500⟩
  else if riskScore > 50 then ⟨"Comprehensive Care Plus", 500000, 5500⟩
  else ⟨"Essential Health Cover", 300000, 3500⟩

/-- `calculateMonthlySavings` from the analysis page (the `profile`
parameter is unused in the source and omitted here):
`Math.round(baseAmount * (riskScore / 50))`. -/
def calculateMonthlySavings (riskScore : ℚ) : ℤ :=
  let baseAmount : ℚ := 2000
  let riskMultiplier : ℚ := riskScore / 50
  jsRound (baseAmount * riskMultiplier)

/-! ## Cache layer (`src/lib/services/cache-service.ts`)

The `Map<string, CacheEntry<any>>` is embedded as an association list with
JavaScript `Map` semantics (`set` overwrites in place, `delete` removes).
Timestamps are milliseconds; `ttl` is in seconds.  `Date.now()` is passed
explicitly as `now`. -/

structure CacheEntry (α : Type) where
  data : α
  timestamp : ℚ
  ttl : ℚ
deriving DecidableEq

def CacheMap (α : Type) := List (String × CacheEntry α)

instance (α : Type) [DecidableEq α] : DecidableEq (CacheMap α) :=
  inferInstanceAs (DecidableEq (List (String × CacheEntry α)))

def mapGet {α} : CacheMap α → String → Option (CacheEntry α)
  | [], _ => none
  | (k', e) :: rest, k => if k' = k then some e else mapGet rest k

def mapSet {α} : CacheMap α → String → CacheEntry α → CacheMap α
  | [], k, e => [(k, e)]
  | (k', e') :: rest, k, e =>
      if k' = k then (k, e) :: rest else (k', e') :: mapSet rest k e

def mapDelete {α} : CacheMap α → String → CacheMap α
  | [], _ => []
  | (k', e') :: rest, k =>
      if k' = k then rest else (k', e') :: mapDelete rest k

/-- `CacheService.get`: a missing key yields `null`; an entry whose age
exceeds `ttl * 1000` is deleted and yields `null`. -/
def cacheGet {α} (m : CacheMap α) (now : ℚ) (key : String) :
    Option α × CacheMap α :=
  match mapGet m key with
  | none => (none, m)
  | some entry =>
      if now - entry.timestamp > entry.ttl * 1000 then (none, mapDelete m key)
      else (some entry.data, m)

/-- `CacheService.set`. -/
def cacheSet {α} (m : CacheMap α) (key : String) (d : α) (now ttl : ℚ) :
    CacheMap α :=
  mapSet m key ⟨d, now, ttl⟩

/-- `withCache`: serve the cached value on a hit; otherwise run the
producer and store its result.  The producer's outcome (resolution or
rejection) is passed as an `Except` value; on a rejection the `.then`
callback that performs the `set` never runs. -/
def withCache {ε α : Type} (m : CacheMap α) (now : ℚ) (cacheKey : String)
    (ttl : ℚ) (fetchFn : Except ε α) : Except ε α × CacheMap α :=
  match cacheGet m now cacheKey with
  | (some v, m₁) => (Except.ok v, m₁)
  | (none, m₁) =>
      match fetchFn with
      | Except.ok d => (Except.ok d, cacheSet m₁ cacheKey d now ttl)
      | Except.error e => (Except.error e, m₁)

/-! ## Retry helper (`src/lib/utils/api-helpers.ts`)

One upstream attempt either succeeds, fails with an `APIError` carrying an
HTTP status (`!response.ok`, or the 408 produced by `fetchWithTimeout` on
abort), or fails with no status (network/parse error).  The outcome of
attempt `n` is given by `f n`; the run records the attempts made and the
`sleep` delays in a trace. -/

structure APIConfig where
  baseUrl : String
  timeout : ℕ
  retryAttempts : ℕ
  retryDelay : ℕ
deriving DecidableEq

inductive FetchOutcome (α : Type) where
  | success (v : α)
  | httpError (status : ℕ)
  | netError
deriving DecidableEq

inductive FetchFailure where
  | terminal (status : ℕ)
  | exhausted
deriving DecidableEq

inductive FetchEvent where
  | attempt (n : ℕ)
  | wait (ms : ℕ)
deriving DecidableEq

/-- "Don't retry on client errors (4xx) except 429 (rate limit)". -/
def nonRetryableStatus (s : ℕ) : Bool :=
  decide (400 ≤ s ∧ s < 500 ∧ s ≠ 429)

/-- The loop body of `fetchWithRetry`.  `remaining` is the number of
retries still allowed (`config.retryAttempts - attempt` in the source,
so `attempt < config.retryAttempts` iff `remaining > 0`).  A retry waits
`config.retryDelay * 2 ^ attempt` milliseconds. -/
def retryLoop {α} (cfg : APIConfig) (f : ℕ → FetchOutcome α) :
    ℕ → ℕ → Except FetchFailure α × List FetchEvent
  | remaining, attempt =>
      match f attempt with
      | .success v => (Except.ok v, [.attempt attempt])
      | .httpError s =>
          if nonRetryableStatus s then
            (Except.error (.terminal s), [.attempt attempt])
          else match remaining with
            | 0 => (Except.error .exhausted, [.attempt attempt])
            | r + 1 =>
                let rest := retryLoop cfg f r (attempt + 1)
                (rest.1, .attempt attempt
                  :: .wait (cfg.retryDelay * 2 ^ attempt) :: rest.2)
      | .netError =>
          match remaining with
          | 0 => (Except.error .exhausted, [.attempt attempt])
          | r + 1 =>
              let rest := retryLoop cfg f r (attempt + 1)
              (rest.1, .attempt attempt
                :: .wait (cfg.retryDelay * 2 ^ attempt) :: rest.2)

/-- `fetchWithRetry`: the loop runs attempts `0` to `config.retryAttempts`. -/
def fetchWithRetry {α} (cfg : APIConfig) (f : ℕ → FetchOutcome α) :
    Except FetchFailure α × List FetchEvent :=
  retryLoop cfg f cfg.retryAttempts 0

/-- The canonical trace shape: attempts `a, a+1, ..., a+k`, with the wait
`retryDelay * 2 ^ i` between attempt `i` and attempt `i + 1`. -/
def traceSeg (cfg : APIConfig) (a : ℕ) : ℕ → List FetchEvent
  | 0 => [.attempt a]
  | k + 1 => .attempt a :: .wait (cfg.retryDelay * 2 ^ a)
      :: traceSeg cfg (a + 1) k

/-- An outcome the `catch` block retries: any failure except an
`APIError` with a non-retryable (4xx non-429) status. -/
def isRetryableFail {α} : FetchOutcome α → Bool
  | .success _ => false
  | .httpError s => !nonRetryableStatus s
  | .netError => true

/-- The delays recorded in a trace, in order. -/
def waitsOf (tr : List FetchEvent) : List ℕ :=
  tr.filterMap fun e => match e with
    | .wait d => some d
    | .attempt _ => none

/-! ## Real-time data fetchers (`src/lib/services/real-time-data-fetcher.ts`)

Each fetcher is embedded as a total function of the upstream responses it
would observe: `none` / a `fails` flag selects the source's `catch`
(fallback) branch.  The `withCache` wrapper around each producer is
modelled separately (cache layer above); fetchers are embedded at their
cache-miss path.  Timestamp fields (`new Date().toISOString()`) are
ephemeral and omitted throughout. -/

/-- Substring occurrence over the character list of a string. -/
def listIncludes (pat : List Char) : List Char → Bool
  | [] => pat.isEmpty
  | c :: rest => pat.isPrefixOf (c :: rest) || listIncludes pat rest

/-- JavaScript `String.prototype.includes`. -/
def includesSub (s pat : String) : Bool :=
  listIncludes pat.data s.data

structure SourcesTag where
  weather : String
  aqi : String
deriving DecidableEq

structure ClimateData where
  city : String
  temperature : ℚ
  humidity : ℚ
  aqi : ℚ
  weatherCondition : String
  climateRisk : String
  seasonalRisks : List String
  sources : SourcesTag
deriving DecidableEq

structure AQICNResult where
  status : String
  aqi : ℚ
deriving DecidableEq

/-- Upstream observations of a successful `fetchClimateData` producer:
the Open-Meteo current weather, plus the AQICN and OpenWeatherMap
responses when those keys are configured and their inner fetches succeed
(`none` covers both "not configured" and the inner `catch`). -/
structure ClimateUpstream where
  temperature2m : ℚ
  relativeHumidity : ℚ
  aqicn : Option AQICNResult
  weatherMain : Option String
deriving DecidableEq

/-- `fetchClimateData`.  The success branch mirrors the producer body:
AQI defaults to 150 "Estimated" unless AQICN answered `status = "ok"` with
a positive AQI; the temperature is `Math.round`ed; climate risk and
seasonal risks derive from AQI, temperature and humidity.  The `catch`
branch returns the hard-coded fallback. -/
def fetchClimateData (city : String) (upstream : Option ClimateUpstream) :
    ClimateData :=
  match upstream with
  | some u =>
      let aqiPair : ℚ × String :=
        match u.aqicn with
        | some r =>
            if r.status = "ok" ∧ r.aqi > 0 then (r.aqi, "AQICN (Real-time)")
            else (150, "Estimated")
        | none => (150, "Estimated")
      let aqi := aqiPair.1
      let weatherCondition := (u.weatherMain).getD "Clear"
      let climateRisk :=
        if aqi > 200 then "Critical"
        else if aqi > 150 then "High"
        else if aqi > 100 then "Moderate"
        else "Low"
      let temp : ℚ := (jsRound u.temperature2m : ℚ)
      let seasonalRisks :=
        (if temp > 40 then ["Extreme heat warning"]
         else if temp > 35 then ["Heat stress risk"]
         else [])
        ++ (if aqi > 150 then ["Poor air quality - respiratory risks"] else [])
        ++ (if u.relativeHumidity > 80 then
              ["High humidity - heat exhaustion risk"]
            else [])
      { city := city, temperature := temp, humidity := u.relativeHumidity
        aqi := aqi, weatherCondition := weatherCondition
        climateRisk := climateRisk, seasonalRisks := seasonalRisks
        sources := ⟨"Open-Meteo (Real-time)", aqiPair.2⟩ }
  | none =>
      { city := city, temperature := 30, humidity := 65, aqi := 150
        weatherCondition := "Clear", climateRisk := "Moderate"
        seasonalRisks := ["Data temporarily unavailable"]
        sources := ⟨"Fallback estimate", "Fallback estimate"⟩ }

structure DeathRateData where
  country : String
  city : String
  overallDeathRate : ℚ
  ageAdjustedRate : ℚ
  year : ℕ
  source : String
  confidence : String
deriving DecidableEq

/-- The `cityMultipliers` record with default `1.0`. -/
def cityMultiplier (city : String) : ℚ :=
  if city = "Mumbai" then 0.9
  else if city = "Delhi" then 1.0
  else if city = "Bangalore" then 0.85
  else if city = "Hyderabad" then 0.9
  else if city = "Chennai" then 0.88
  else if city = "Kolkata" then 1.05
  else if city = "Pune" then 0.87
  else if city = "Ahmedabad" then 0.95
  else if city = "Jaipur" then 1.0
  else if city = "Lucknow" then 1.05
  else 1.0

/-- `fetchDeathRateData`.  `upstream = some v?` is a successful World Bank
call whose latest non-null indicator value is `v?` (`none` inside means no
usable value, keeping the 7.3 default); outer `none` is the `catch`
branch.  Note the fallback branch applies no multiplier for ages ≤ 40 and
no city multiplier. -/
def fetchDeathRateData (city : String) (age : ℚ)
    (upstream : Option (Option ℚ)) : DeathRateData :=
  match upstream with
  | some latest =>
      let baseRate := latest.getD 7.3
      let ageAdjusted :=
        baseRate *
          (if age > 60 then 2.5
           else if age > 50 then 1.8
           else if age > 40 then 1.3
           else if age > 30 then 1.0
           else 0.7)
      let ageAdjusted := ageAdjusted * cityMultiplier city
      { country := "India", city := city
        overallDeathRate := (jsRound (baseRate * 10) : ℚ) / 10
        ageAdjustedRate := (jsRound (ageAdjusted * 10) : ℚ) / 10
        year := 2023, source := "World Bank API", confidence := "high" }
  | none =>
      let baseRate : ℚ := 7.3
      let baseRate :=
        if age > 60 then baseRate * 2.5
        else if age > 50 then baseRate * 1.8
        else if age > 40 then baseRate * 1.3
        else baseRate
      { country := "India", city := city, overallDeathRate := 7.3
        ageAdjustedRate := (jsRound (baseRate * 10) : ℚ) / 10
        year := 2023, source := "Estimated (API unavailable)"
        confidence := "low" }

structure OccupationDeathRateData where
  occupation : String
  deathRate : ℚ
  injuryRate : ℚ
  fatalityRate : ℚ
  year : ℕ
  source : String
  confidence : String
deriving DecidableEq

/-- The static `occupationRates` record, default `{18.5, …}` pairs as in
source, `(5.0, 15.0)` for unknown occupations. -/
def occupationRates (occupation : String) : ℚ × ℚ :=
  if occupation = "Construction Worker" then (18.5, 45.2)
  else if occupation = "Factory Worker" then (12.3, 38.7)
  else if occupation = "Driver" then (15.2, 28.4)
  else if occupation = "Healthcare Worker" then (8.7, 22.1)
  else if occupation = "Farmer" then (11.2, 35.6)
  else if occupation = "Engineer" then (5.4, 12.3)
  else if occupation = "Business Owner" then (4.8, 8.9)
  else if occupation = "Teacher" then (3.2, 5.4)
  else if occupation = "IT Professional" then (2.1, 4.2)
  else if occupation = "Student" then (1.5, 3.1)
  else (5.0, 15.0)

/-- `fetchOccupationDeathRate`: the producer is a static lookup; `fails`
selects the `catch` branch. -/
def fetchOccupationDeathRate (occupation : String) (fails : Bool) :
    OccupationDeathRateData :=
  if fails then
    { occupation := occupation, deathRate := 5.0, injuryRate := 15.0
      fatalityRate := 0.00005, year := 2023, source := "Estimated"
      confidence := "low" }
  else
    let rates := occupationRates occupation
    { occupation := occupation, deathRate := rates.1, injuryRate := rates.2
      fatalityRate := rates.1 / 100000, year := 2023
      source := "ILO/OSHA Statistics", confidence := "high" }

structure CrimeData where
  city : String
  crimeRate : ℚ
  violentCrimeRate : ℚ
  propertyCrimeRate : ℚ
  safetyIndex : ℚ
  year : ℕ
  source : String
  trend : String
deriving DecidableEq

structure CrimeTableRow where
  rate : ℚ
  violent : ℚ
  property : ℚ
  safety : ℚ
deriving DecidableEq

/-- The static NCRB-based `crimeRates` record, default row for unknown
cities. -/
def crimeRatesTable (city : String) : CrimeTableRow :=
  if city = "Delhi" then ⟨1586.1, 45.2, 1540.9, 45⟩
  else if city = "Mumbai" then ⟨182.5, 12.3, 170.2, 65⟩
  else if city = "Bangalore" then ⟨455.8, 18.7, 437.1, 70⟩
  else if city = "Hyderabad" then ⟨398.2, 15.4, 382.8, 72⟩
  else if city = "Chennai" then ⟨342.7, 14.2, 328.5, 75⟩
  else if city = "Kolkata" then ⟨156.8, 10.8, 146.0, 68⟩
  else if city = "Pune" then ⟨289.4, 11.5, 277.9, 76⟩
  else if city = "Ahmedabad" then ⟨312.5, 13.1, 299.4, 74⟩
  else if city = "Jaipur" then ⟨267.3, 10.2, 257.1, 77⟩
  else if city = "Lucknow" then ⟨245.6, 9.8, 235.8, 78⟩
  else ⟨300, 15, 285, 70⟩

/-- `fetchCrimeData`: static lookup producer; `fails` selects the `catch`
branch. -/
def fetchCrimeData (city : String) (fails : Bool) : CrimeData :=
  if fails then
    { city := city, crimeRate := 300, violentCrimeRate := 15
      propertyCrimeRate := 285, safetyIndex := 70, year := 2023
      source := "Estimated", trend := "stable" }
  else
    let rates := crimeRatesTable city
    { city := city, crimeRate := rates.rate
      violentCrimeRate := rates.violent
      propertyCrimeRate := rates.property, safetyIndex := rates.safety
      year := 2023, source := "NCRB (National Crime Records Bureau)"
      trend := "stable" }

structure NewsArticle where
  title : String
  description : Option String
  sourceName : String
  url : String
deriving DecidableEq

structure HealthAlert where
  title : String
  description : String
  severity : RiskLevel
  category : String
  location : String
  source : String
  url : Option String
deriving DecidableEq

/-- `determineSeverity`: keyword scan of the lowercased text. -/
def determineSeverity (text : String) : RiskLevel :=
  let lowerText := text.toLower
  if includesSub lowerText "critical" ∨ includesSub lowerText "emergency"
      ∨ includesSub lowerText "outbreak" then .critical
  else if includesSub lowerText "warning" ∨ includesSub lowerText "alert"
      ∨ includesSub lowerText "severe" then .high
  else if includesSub lowerText "caution" ∨ includesSub lowerText "risk"
      ∨ includesSub lowerText "concern" then .medium
  else .low

/-- `generateFallbackAlerts`. -/
def generateFallbackAlerts (city : String) : List HealthAlert :=
  [{ title := "General Health Advisory"
     description :=
       "Maintain regular health check-ups and follow preventive measures"
     severity := .low, category := "General Health", location := city
     source := "System Generated", url := none }]

/-- `fetchHealthAlerts`: `none` covers "NewsAPI not configured" and the
`catch` branch; on success, the first three articles are mapped to
alerts, with the fallback used when the mapped list is empty. -/
def fetchHealthAlerts (city : String)
    (upstream : Option (List NewsArticle)) : List HealthAlert :=
  match upstream with
  | some articles =>
      let alerts := (articles.take 3).map fun article =>
        { title := article.title
          description := (article.description).getD ""
          severity := determineSeverity
            (article.title ++ " " ++ (article.description).getD "")
          category := "Health News", location := city
          source := article.sourceName
          url := some article.url : HealthAlert }
      if 0 < alerts.length then alerts else generateFallbackAlerts city
  | none => generateFallbackAlerts city

inductive Quality where
  | excellent | good | fair | poor
deriving DecidableEq

structure DataQuality where
  overall : Quality
  sources : ℕ
  realTimeDataPercentage : ℤ
deriving DecidableEq

structure RealTimeData where
  climate : ClimateData
  deathRate : DeathRateData
  occupationDeathRate : OccupationDeathRateData
  crime : CrimeData
  healthAlerts : List HealthAlert
  dataQuality : DataQuality
deriving DecidableEq

/-- One aggregation pass's upstream observations, one per fetcher. -/
structure FetcherOutcomes where
  climate : Option ClimateUpstream
  worldBank : Option (Option ℚ)
  occupationFails : Bool
  crimeFails : Bool
  news : Option (List NewsArticle)
deriving DecidableEq

def countTrue (l : List Bool) : ℕ := (l.filter id).length

/-- The threshold mapping of a real-time percentage to the `overall`
grade (the if-chain at the end of `fetchAllRealTimeData`). -/
def overallOfPercentage (p : ℚ) : Quality :=
  if p ≥ 75 then .excellent
  else if p ≥ 50 then .good
  else if p ≥ 25 then .fair
  else .poor

/-- The "Calculate data quality" block of `fetchAllRealTimeData`:
`sources` is the `Set` size of the five provenance labels;
`realTimeCount` counts the four indicators from the source
(`includes('Real-time')` on the two climate labels, `confidence === 'high'`
on death rate and occupation death rate); the percentage is
`realTimeCount / 4 × 100`. -/
def dataQualityOf (climate : ClimateData) (deathRate : DeathRateData)
    (occupationDeathRate : OccupationDeathRateData) (crime : CrimeData) :
    DataQuality :=
  let sources := [climate.sources.weather, climate.sources.aqi,
    deathRate.source, occupationDeathRate.source, crime.source].dedup.length
  let realTimeCount := countTrue [includesSub climate.sources.weather "Real-time",
    includesSub climate.sources.aqi "Real-time",
    deathRate.confidence == "high",
    occupationDeathRate.confidence == "high"]
  let realTimePercentage : ℚ := ((realTimeCount : ℚ) / 4) * 100
  { overall := overallOfPercentage realTimePercentage
    sources := sources
    realTimeDataPercentage := jsRound realTimePercentage }

/-- `fetchAllRealTimeData`: fan-out to the five fetchers, then compute
`dataQuality`. -/
def fetchAllRealTimeData (city occupation : String) (age : ℚ)
    (w : FetcherOutcomes) : RealTimeData :=
  let climate := fetchClimateData city w.climate
  let deathRate := fetchDeathRateData city age w.worldBank
  let occupationDeathRate := fetchOccupationDeathRate occupation w.occupationFails
  let crime := fetchCrimeData city w.crimeFails
  let healthAlerts := fetchHealthAlerts city w.news
  { climate := climate, deathRate := deathRate
    occupationDeathRate := occupationDeathRate, crime := crime
    healthAlerts := healthAlerts
    dataQuality := dataQualityOf climate deathRate occupationDeathRate crime }

/-! ## Data aggregator (`data-collector.ts`, `collectAllData`) -/

structure CityStats where
  crimeRate : ℚ
  safetyIndex : ℚ
deriving DecidableEq

/-- Modelled from the spec: the `crime-statistics` module's
`getCityStatistics` is not under `src/`.  The spec describes it as a
static per-city crime/safety reference table, always available, used as a
secondary source of truth.  Its concrete rows are not needed by any claim;
a fixed row stands in for the table. -/
def getCityStatistics (_city : String) : CityStats :=
  { crimeRate := 300, safetyIndex := 70 }

structure OccupationHazard where
  hazardLevel : String
  riskScore : ℚ
  deathRate : ℚ
deriving DecidableEq

/-- Modelled from the spec: the `occupation-hazards` module's
`getOccupationHazard` is not under `src/`.  The spec describes it as a
static per-occupation hazard table (hazard level plus a 0-100 risk score),
always available.  Its concrete rows are not needed by any claim; a fixed
row stands in for the table. -/
def getOccupationHazard (_occupation : String) : OccupationHazard :=
  { hazardLevel := "medium", riskScore := 50, deathRate := 5 }

structure CollectedEnvironmental where
  city : String
  aqi : ℚ
  temperature : ℚ
  humidity : ℚ
  climateRisk : String
  weatherCondition : String
  seasonalRisks : List String
  sources : SourcesTag
deriving DecidableEq

structure CollectedStatistical where
  deathRate : ℚ
  ageAdjustedDeathRate : ℚ
  crimeRate : ℚ
  violentCrimeRate : ℚ
  safetyIndex : ℚ
  occupationHazardLevel : String
  occupationDeathRate : ℚ
  cityHealthIndex : ℚ
deriving DecidableEq

structure CollectedData where
  environmental : CollectedEnvironmental
  statistical : CollectedStatistical
  occupationHazard : OccupationHazard
  cityStats : CityStats
  realTimeData : RealTimeData
  healthAlerts : List HealthAlert
  dataQuality : DataQuality
deriving DecidableEq

/-- `collectAllData` (main path): fetch all real-time data, load the
static tables, merge, and compute the city health index.  The function is
total: per-fetcher failures are absorbed as fallback values inside
`fetchAllRealTimeData`, so this path never throws.  (The `catch` →
`collectBasicData` degraded path is only reachable through an exception
this model cannot produce.) -/
def collectAllData (city occupation : String) (age : ℚ)
    (w : FetcherOutcomes) : CollectedData :=
  let rt := fetchAllRealTimeData city occupation age w
  let cityStats := getCityStatistics city
  let occupationHazard := getOccupationHazard occupation
  let environmental : CollectedEnvironmental :=
    { city := rt.climate.city, aqi := rt.climate.aqi
      temperature := rt.climate.temperature, humidity := rt.climate.humidity
      climateRisk := rt.climate.climateRisk
      weatherCondition := rt.climate.weatherCondition
      seasonalRisks := rt.climate.seasonalRisks
      sources := rt.climate.sources }
  let cityHealthIndex := calculateCityHealthIndex environmental.aqi
    rt.crime.crimeRate environmental.temperature
  let statistical : CollectedStatistical :=
    { deathRate := rt.deathRate.overallDeathRate
      ageAdjustedDeathRate := rt.deathRate.ageAdjustedRate
      crimeRate := rt.crime.crimeRate
      violentCrimeRate := rt.crime.violentCrimeRate
      safetyIndex := rt.crime.safetyIndex
      occupationHazardLevel := occupationHazard.hazardLevel
      occupationDeathRate := rt.occupationDeathRate.deathRate
      cityHealthIndex := cityHealthIndex }
  { environmental := environmental, statistical := statistical
    occupationHazard := occupationHazard, cityStats := cityStats
    realTimeData := rt, healthAlerts := rt.healthAlerts
    dataQuality := rt.dataQuality }

/-! ## Theorems -/

lemma jsRound_le_of_le {q : ℚ} {n : ℤ} (h : (n : ℚ) ≤ q) : n ≤ jsRound q := by
  unfold jsRound
  rw [Int.le_floor]
  push_cast
  linarith

lemma jsRound_intCast (n : ℤ) : jsRound (n : ℚ) = n := by
  unfold jsRound
  rw [Int.floor_int_add]
  have h0 : ⌊(1 / 2 : ℚ)⌋ = 0 := by
    rw [Int.floor_eq_zero_iff]
    constructor <;> norm_num
  rw [h0, add_zero]

/-- Evaluation rule for `jsRound` at a concrete rational. -/
lemma jsRound_eq {q : ℚ} {n : ℤ} (h1 : (n : ℚ) ≤ q + 1 / 2)
    (h2 : q + 1 / 2 < (n : ℚ) + 1) : jsRound q = n := by
  unfold jsRound
  rw [Int.floor_eq_iff]
  exact ⟨h1, by push_cast; linarith⟩

/-- **C6.** The insurance plan selected from a risk score is exactly
"Premium Health Shield" (coverage 1,000,000, premium 8,500) iff
`score > 70`, "Comprehensive Care Plus" (500,000 / 5,500) iff
`50 < score ≤ 70`, and "Essential Health Cover" (300,000 / 3,500) iff
`score ≤ 50`. -/
theorem getInsurancePlan_bands :
    ∀ s : ℚ,
      (getInsurancePlan s = ⟨"Premium Health Shield", 1000000, 8500⟩ ↔ 70 < s) ∧
      (getInsurancePlan s = ⟨"Comprehensive Care Plus", 500000, 5500⟩ ↔
        50 < s ∧ s ≤ 70) ∧
      (getInsurancePlan s = ⟨"Essential Health Cover", 300000, 3500⟩ ↔ s ≤ 50) := by
  intro s
  have hname : ∀ {p q : InsurancePlan}, p = q → p.name = q.name :=
    fun h => congrArg InsurancePlan.name h
  unfold getInsurancePlan
  split_ifs with h1 h2
  · refine ⟨⟨fun _ => h1, fun _ => rfl⟩, ?_, ?_⟩
    · constructor
      · intro hc; exact absurd (hname hc) (by decide)
      · intro hb; exfalso; linarith [hb.2]
    · constructor
      · intro hc; exact absurd (hname hc) (by decide)
      · intro hb; exfalso; linarith
  · refine ⟨?_, ⟨fun _ => ⟨h2, not_lt.mp h1⟩, fun _ => rfl⟩, ?_⟩
    · constructor
      · intro hc; exact absurd (hname hc) (by decide)
      · intro hb; exact absurd hb h1
    · constructor
      · intro hc; exact absurd (hname hc) (by decide)
      · intro hb; exfalso; linarith
  · refine ⟨?_, ?_, ⟨fun _ => not_lt.mp h2, fun _ => rfl⟩⟩
    · constructor
      · intro hc; exact absurd (hname hc) (by decide)
      · intro hb; exact absurd hb h1
    · constructor
      · intro hc; exact absurd (hname hc) (by decide)
      · intro hb; exact absurd hb.1 h2

/-- **C7.** For every risk score the monthly savings target equals
`round(2000 × riskScore / 50)`; on integer scores this is `40 × score`,
and in particular the target at score 100 is exactly twice the target at
score 50. -/
theorem calculateMonthlySavings_linear :
    (∀ s : ℚ, calculateMonthlySavings s = jsRound (2000 * s / 50)) ∧
    (∀ n : ℤ, calculateMonthlySavings (n : ℚ) = 40 * n) ∧
    calculateMonthlySavings 100 = 2 * calculateMonthlySavings 50 := by
  have h1 : ∀ s : ℚ, calculateMonthlySavings s = jsRound (2000 * s / 50) := by
    intro s
    unfold calculateMonthlySavings
    congr 1
    ring
  have h2 : ∀ n : ℤ, calculateMonthlySavings (n : ℚ) = 40 * n := by
    intro n
    rw [h1]
    have h3 : (2000 : ℚ) * (n : ℚ) / 50 = ((40 * n : ℤ) : ℚ) := by
      push_cast
      ring
    rw [h3, jsRound_intCast]
  refine ⟨h1, h2, ?_⟩
  have e100 : ((100 : ℤ) : ℚ) = (100 : ℚ) := by norm_num
  have e50 : ((50 : ℤ) : ℚ) = (50 : ℚ) := by norm_num
  rw [← e100, ← e50, h2 100, h2 50]
  norm_num

lemma aqiDeduction_nonneg (aqi : ℚ) : 0 ≤ aqiDeduction aqi := by
  unfold aqiDeduction; split_ifs <;> norm_num

lemma aqiDeduction_mono {a a' : ℚ} (h : a ≤ a') :
    aqiDeduction a ≤ aqiDeduction a' := by
  unfold aqiDeduction; split_ifs <;> linarith

lemma crimeRateDeduction_nonneg (c : ℚ) : 0 ≤ crimeRateDeduction c := by
  unfold crimeRateDeduction; split_ifs <;> norm_num

lemma crimeRateDeduction_mono {c c' : ℚ} (h : c ≤ c') :
    crimeRateDeduction c ≤ crimeRateDeduction c' := by
  unfold crimeRateDeduction; split_ifs <;> linarith

lemma temperatureDeduction_nonneg (t : ℚ) : 0 ≤ temperatureDeduction t := by
  unfold temperatureDeduction; split_ifs <;> norm_num

lemma temperatureDeduction_mono {t t' : ℚ} (h : |t - 25| ≤ |t' - 25|) :
    temperatureDeduction t ≤ temperatureDeduction t' := by
  have h15 : ∀ x : ℚ, (x > 40 ∨ x < 10) ↔ 15 < |x - 25| := by
    intro x
    rw [lt_abs]
    constructor <;> rintro (hx | hx) <;> [left; right; left; right] <;> linarith
  have h10 : ∀ x : ℚ, (x > 35 ∨ x < 15) ↔ 10 < |x - 25| := by
    intro x
    rw [lt_abs]
    constructor <;> rintro (hx | hx) <;> [left; right; left; right] <;> linarith
  unfold temperatureDeduction
  by_cases c1 : t > 40 ∨ t < 10
  · have c1' : t' > 40 ∨ t' < 10 :=
      (h15 t').mpr (lt_of_lt_of_le ((h15 t).mp c1) h)
    rw [if_pos c1, if_pos c1']
  · by_cases c2 : t > 35 ∨ t < 15
    · have c2' : t' > 35 ∨ t' < 15 :=
        (h10 t').mpr (lt_of_lt_of_le ((h10 t).mp c2) h)
      rw [if_neg c1, if_pos c2]
      by_cases c1' : t' > 40 ∨ t' < 10
      · rw [if_pos c1']; norm_num
      · rw [if_neg c1', if_pos c2']
    · rw [if_neg c1, if_neg c2]
      split_ifs <;> norm_num

/-- **C3.** `calculateCityHealthIndex` always lies in `[0, 100]`, and is
monotonically non-increasing as AQI increases, as the crime rate
increases, and as the temperature moves further from the comfortable
midpoint (extremity measured as `|temperature − 25|`, which matches the
source's symmetric `>40 ∨ <10` and `>35 ∨ <15` bands). -/
theorem calculateCityHealthIndex_spec :
    ∀ aqi crimeRate temperature : ℚ,
      (0 ≤ calculateCityHealthIndex aqi crimeRate temperature ∧
        calculateCityHealthIndex aqi crimeRate temperature ≤ 100) ∧
      (∀ aqi', aqi ≤ aqi' →
        calculateCityHealthIndex aqi' crimeRate temperature ≤
          calculateCityHealthIndex aqi crimeRate temperature) ∧
      (∀ crimeRate', crimeRate ≤ crimeRate' →
        calculateCityHealthIndex aqi crimeRate' temperature ≤
          calculateCityHealthIndex aqi crimeRate temperature) ∧
      (∀ temperature', |temperature - 25| ≤ |temperature' - 25| →
        calculateCityHealthIndex aqi crimeRate temperature' ≤
          calculateCityHealthIndex aqi crimeRate temperature) := by
  intro a c t
  unfold calculateCityHealthIndex
  refine ⟨⟨le_max_right _ _, ?_⟩, ?_, ?_, ?_⟩
  · exact max_le (by linarith [aqiDeduction_nonneg a, crimeRateDeduction_nonneg c,
      temperatureDeduction_nonneg t]) (by norm_num)
  · intro a' h
    exact max_le_max (by linarith [aqiDeduction_mono h]) le_rfl
  · intro c' h
    exact max_le_max (by linarith [crimeRateDeduction_mono h]) le_rfl
  · intro t' h
    exact max_le_max (by linarith [temperatureDeduction_mono h]) le_rfl

/-- Witness for C3 at concrete inputs: raising AQI 120→160, crime
400→900, and moving temperature 30→43 each lower the index. -/
theorem calculateCityHealthIndex_spec_witness :
    calculateCityHealthIndex 160 400 30 ≤ calculateCityHealthIndex 120 400 30 ∧
    calculateCityHealthIndex 120 900 30 ≤ calculateCityHealthIndex 120 400 30 ∧
    calculateCityHealthIndex 120 400 43 ≤ calculateCityHealthIndex 120 400 30 :=
  ⟨(calculateCityHealthIndex_spec 120 400 30).2.1 160 (by norm_num),
   (calculateCityHealthIndex_spec 120 400 30).2.2.1 900 (by norm_num),
   (calculateCityHealthIndex_spec 120 400 30).2.2.2 43 (by
     rw [show (30 : ℚ) - 25 = 5 by norm_num, show (43 : ℚ) - 25 = 18 by norm_num,
       abs_of_nonneg (by norm_num : (0 : ℚ) ≤ 5),
       abs_of_nonneg (by norm_num : (0 : ℚ) ≤ 18)]
     norm_num)⟩

/-- Nonnegativity of an optional numeric field (trivially true when the
field is absent). -/
def optNonneg : Option ℚ → Prop
  | none => True
  | some r => 0 ≤ r

instance (o : Option ℚ) : Decidable (optNonneg o) :=
  match o with
  | none => isTrue trivial
  | some r => inferInstanceAs (Decidable (0 ≤ r))

/-- "Nonnegative numeric fields" of a risk-calculation input. -/
def NonnegNumericInput (input : RiskCalculationInput) : Prop :=
  0 ≤ input.userProfile.age ∧
  0 ≤ input.environmentalData.aqi ∧
  0 ≤ input.occupationHazard.riskScore ∧
  0 ≤ input.cityStats.crimeRate ∧
  optNonneg input.statisticalData.ageAdjustedDeathRate ∧
  optNonneg input.statisticalData.violentCrimeRate ∧
  optNonneg input.statisticalData.safetyIndex

instance (input : RiskCalculationInput) : Decidable (NonnegNumericInput input) := by
  unfold NonnegNumericInput
  infer_instance

lemma agePoints_nonneg (age : ℚ) : 0 ≤ agePoints age := by
  unfold agePoints; split_ifs <;> norm_num

lemma ageDeathRatePoints_nonneg (o : Option ℚ) (ho : optNonneg o) :
    0 ≤ ageDeathRatePoints o := by
  cases o with
  | none => simp [ageDeathRatePoints]
  | some r =>
      have hr : 0 ≤ r := ho
      simp only [ageDeathRatePoints]
      split_ifs
      · exact le_min (by positivity) (by norm_num)
      · norm_num

lemma aqiPoints_ge_five (aqi : ℚ) : 5 ≤ aqiPoints aqi := by
  unfold aqiPoints; split_ifs <;> norm_num

lemma seasonalRiskPoints_nonneg (o : Option (List String)) :
    0 ≤ seasonalRiskPoints o := by
  cases o with
  | none => simp [seasonalRiskPoints]
  | some l =>
      simp only [seasonalRiskPoints]
      split_ifs
      · exact le_min (by positivity) (by norm_num)
      · norm_num

lemma jsRound_nonneg {q : ℚ} (h : 0 ≤ q) : 0 ≤ jsRound q :=
  jsRound_le_of_le (by push_cast; linarith)

lemma occupationPoints_nonneg {r : ℚ} (h : 0 ≤ r) : 0 ≤ occupationPoints r := by
  unfold occupationPoints
  have := jsRound_nonneg (q := r * (1 / 5)) (by positivity)
  exact_mod_cast this

lemma workShiftPoints_nonneg (ws : String) : 0 ≤ workShiftPoints ws := by
  unfold workShiftPoints; split_ifs <;> norm_num

lemma calculateCrimeStressImpact_nonneg (c : ℚ) :
    0 ≤ calculateCrimeStressImpact c := by
  unfold calculateCrimeStressImpact
  exact le_min (div_nonneg (le_max_right _ _) (by norm_num)) (by norm_num)

lemma violentCrimePoints_nonneg (o : Option ℚ) : 0 ≤ violentCrimePoints o := by
  cases o with
  | none => simp [violentCrimePoints]
  | some v =>
      simp only [violentCrimePoints]
      split_ifs with hv
      · exact le_min (by linarith [hv.2]) (by norm_num)
      · norm_num

lemma safetyIndexPoints_nonneg (o : Option ℚ) : 0 ≤ safetyIndexPoints o := by
  cases o with
  | none => simp [safetyIndexPoints]
  | some s =>
      simp only [safetyIndexPoints]
      split_ifs <;> norm_num

/-- With nonnegative numeric inputs, the rational accumulator is at least
15 (base 10 plus the minimum AQI band of 5). -/
lemma riskScoreSum_ge_fifteen {input : RiskCalculationInput}
    (h : NonnegNumericInput input) : 15 ≤ riskScoreSum input := by
  obtain ⟨ha, haqi, hocc, hcr, hadr, hvcr, hsi⟩ := h
  unfold riskScoreSum
  have h1 := agePoints_nonneg input.userProfile.age
  have h2 := ageDeathRatePoints_nonneg _ hadr
  have h3 := aqiPoints_ge_five input.environmentalData.aqi
  have h4 := seasonalRiskPoints_nonneg input.environmentalData.seasonalRisks
  have h5 := occupationPoints_nonneg hocc
  have h6 : (0 : ℚ) ≤ if presentStr input.userProfile.healthCondition then 15 else 0 := by
    split_ifs <;> norm_num
  have h7 : (0 : ℚ) ≤ if presentStr input.userProfile.addictions then 10 else 0 := by
    split_ifs <;> norm_num
  have h8 : (0 : ℚ) ≤ if presentStr input.userProfile.pastSurgery then 5 else 0 := by
    split_ifs <;> norm_num
  have h9 := workShiftPoints_nonneg input.userProfile.workShift
  have h10 : (0 : ℚ) ≤ min (calculateCrimeStressImpact input.cityStats.crimeRate) 10 :=
    le_min (calculateCrimeStressImpact_nonneg _) (by norm_num)
  have h11 := violentCrimePoints_nonneg input.statisticalData.violentCrimeRate
  have h12 := safetyIndexPoints_nonneg input.statisticalData.safetyIndex
  linarith

/-- With nonnegative numeric inputs the returned score is at least 15. -/
lemma calculateRiskScore_ge_fifteen {input : RiskCalculationInput}
    (h : NonnegNumericInput input) : 15 ≤ calculateRiskScore input := by
  unfold calculateRiskScore
  have hs := riskScoreSum_ge_fifteen h
  exact le_min (jsRound_le_of_le (by push_cast; linarith)) (by norm_num)

/-- The four threshold bands of `getRiskLevel`. -/
lemma getRiskLevel_iff (s : ℤ) :
    (getRiskLevel s = .critical ↔ 80 ≤ s) ∧
    (getRiskLevel s = .high ↔ 60 ≤ s ∧ s < 80) ∧
    (getRiskLevel s = .medium ↔ 40 ≤ s ∧ s < 60) ∧
    (getRiskLevel s = .low ↔ s < 40) := by
  unfold getRiskLevel
  split_ifs with h1 h2 h3 <;>
    refine ⟨?_, ?_, ?_, ?_⟩ <;> constructor <;> intro h <;>
    first
      | rfl
      | omega
      | (exfalso; omega)
      | simp_all

/-- **C1.** For every input with nonnegative numeric fields,
`calculateRiskScore` returns an integer in `[0, 100]` (the codomain is
`ℤ`, so integrality is by type), and `getRiskLevel` maps a score to
`critical` iff it is ≥ 80, `high` iff in `[60, 80)`, `medium` iff in
`[40, 60)`, and `low` iff below 40. -/
theorem calculateRiskScore_range_and_levels :
    ∀ input : RiskCalculationInput, NonnegNumericInput input →
      (0 ≤ calculateRiskScore input ∧ calculateRiskScore input ≤ 100) ∧
      (∀ s : ℤ,
        (getRiskLevel s = .critical ↔ 80 ≤ s) ∧
        (getRiskLevel s = .high ↔ 60 ≤ s ∧ s < 80) ∧
        (getRiskLevel s = .medium ↔ 40 ≤ s ∧ s < 60) ∧
        (getRiskLevel s = .low ↔ s < 40)) := by
  intro input h
  refine ⟨⟨?_, ?_⟩, getRiskLevel_iff⟩
  · linarith [calculateRiskScore_ge_fifteen h]
  · exact min_le_right _ _

/-- A concrete risk-calculation input used by witnesses. -/
def exampleRiskInput : RiskCalculationInput :=
  { userProfile :=
      { occupation := "Teacher", city := "Delhi", workShift := "Day Shift"
        healthCondition := "None", addictions := "None", pastSurgery := "None"
        age := 30 }
    environmentalData :=
      { aqi := 120, seasonalRisks := some ["Heat stress risk"]
        weatherCondition := some "Clear" }
    statisticalData :=
      { ageAdjustedDeathRate := some 10, violentCrimeRate := some 35
        safetyIndex := some 65, cityHealthIndex := 55 }
    occupationHazard := { riskScore := 40, hazardLevel := "medium", deathRate := 3.2 }
    cityStats := { crimeRate := 450 } }

/-- Witness for C1 at `exampleRiskInput`. -/
theorem calculateRiskScore_range_and_levels_witness :
    NonnegNumericInput exampleRiskInput ∧
      (0 ≤ calculateRiskScore exampleRiskInput ∧
        calculateRiskScore exampleRiskInput ≤ 100) :=
  ⟨by decide, (calculateRiskScore_range_and_levels exampleRiskInput (by decide)).1⟩

/-- **C9.** With nonnegative numeric fields and a nonnegative crime-stress
value, the score is at least 15 — so scores in `[0, 15)` never occur and
the `low` band is in practice `[15, 40)`. -/
theorem calculateRiskScore_at_least_fifteen :
    ∀ input : RiskCalculationInput, NonnegNumericInput input →
      0 ≤ calculateCrimeStressImpact input.cityStats.crimeRate →
      15 ≤ calculateRiskScore input ∧
      (getRiskLevel (calculateRiskScore input) = .low ↔
        15 ≤ calculateRiskScore input ∧ calculateRiskScore input < 40) := by
  intro input h _
  have h15 := calculateRiskScore_ge_fifteen h
  refine ⟨h15, ?_⟩
  rw [(getRiskLevel_iff (calculateRiskScore input)).2.2.2]
  exact ⟨fun hl => ⟨h15, hl⟩, fun hl => hl.2⟩

/-- Witness for C9 at `exampleRiskInput`. -/
theorem calculateRiskScore_at_least_fifteen_witness :
    NonnegNumericInput exampleRiskInput ∧
      0 ≤ calculateCrimeStressImpact exampleRiskInput.cityStats.crimeRate ∧
      15 ≤ calculateRiskScore exampleRiskInput :=
  ⟨by decide,
   calculateCrimeStressImpact_nonneg _,
   (calculateRiskScore_at_least_fifteen exampleRiskInput (by decide)
     (calculateCrimeStressImpact_nonneg _)).1⟩

lemma mem_insertDesc {x z : RiskFactor} {l : List RiskFactor} :
    z ∈ insertDesc x l ↔ z = x ∨ z ∈ l := by
  induction l with
  | nil => simp [insertDesc]
  | cons y ys ih =>
      unfold insertDesc
      split_ifs with h
      · simp only [List.mem_cons, ih]
        tauto
      · simp [List.mem_cons]

lemma pairwise_insertDesc (x : RiskFactor) {l : List RiskFactor}
    (hl : List.Pairwise (fun a b => b.impact ≤ a.impact) l) :
    List.Pairwise (fun a b => b.impact ≤ a.impact) (insertDesc x l) := by
  induction l with
  | nil => simp [insertDesc]
  | cons y ys ih =>
      rcases List.pairwise_cons.mp hl with ⟨hy, hys⟩
      unfold insertDesc
      split_ifs with h
      · refine List.pairwise_cons.mpr ⟨?_, ih hys⟩
        intro z hz
        rcases mem_insertDesc.mp hz with rfl | hz'
        · exact le_of_lt h
        · exact hy z hz'
      · refine List.pairwise_cons.mpr ⟨?_, hl⟩
        intro z hz
        rcases List.mem_cons.mp hz with rfl | hz'
        · exact not_lt.mp h
        · exact le_trans (hy z hz') (not_lt.mp h)

lemma sorted_sortByImpactDesc (l : List RiskFactor) :
    List.Pairwise (fun a b => b.impact ≤ a.impact) (sortByImpactDesc l) := by
  induction l with
  | nil => simp [sortByImpactDesc]
  | cons x xs ih => exact pairwise_insertDesc x ih

lemma filter_insertDesc (v : ℚ) (x : RiskFactor) (l : List RiskFactor) :
    (insertDesc x l).filter (fun z => decide (z.impact = v)) =
      if x.impact = v then
        x :: l.filter (fun z => decide (z.impact = v))
      else l.filter (fun z => decide (z.impact = v)) := by
  induction l with
  | nil =>
      by_cases hx : x.impact = v <;> simp [insertDesc, List.filter, hx]
  | cons y ys ih =>
      by_cases h : x.impact < y.impact
      · have hins : insertDesc x (y :: ys) = y :: insertDesc x ys := by
          simp [insertDesc, h]
        rw [hins, List.filter_cons]
        by_cases hy : y.impact = v
        · have hx : ¬ x.impact = v := by
            intro hx
            rw [hx, hy] at h
            exact lt_irrefl v h
          simp [hy, ih, hx, List.filter_cons]
        · by_cases hx : x.impact = v <;>
            simp [hy, ih, hx, List.filter_cons]
      · have hins : insertDesc x (y :: ys) = x :: y :: ys := by
          simp [insertDesc, h]
        rw [hins]
        by_cases hx : x.impact = v <;> simp [List.filter_cons, hx]

lemma filter_sortByImpactDesc (v : ℚ) (l : List RiskFactor) :
    (sortByImpactDesc l).filter (fun z => decide (z.impact = v)) =
      l.filter (fun z => decide (z.impact = v)) := by
  induction l with
  | nil => simp [sortByImpactDesc]
  | cons x xs ih =>
      have h : sortByImpactDesc (x :: xs) = insertDesc x (sortByImpactDesc xs) := rfl
      rw [h, filter_insertDesc]
      by_cases hx : x.impact = v <;> simp [List.filter_cons, hx, ih]

/-- **C4.** `generateRiskFactors` always returns a list sorted in
non-increasing order of `impact`, and the sort is stable: for every
impact value, the subsequence of factors with that impact equals the
corresponding subsequence of the pre-sort (insertion-order) list. -/
theorem generateRiskFactors_sorted_and_stable :
    ∀ input : RiskCalculationInput,
      List.Pairwise (fun a b => b.impact ≤ a.impact)
        (generateRiskFactors input) ∧
      ∀ v : ℚ,
        (generateRiskFactors input).filter (fun z => decide (z.impact = v)) =
          (rawRiskFactors input).filter (fun z => decide (z.impact = v)) :=
  fun input =>
    ⟨sorted_sortByImpactDesc (rawRiskFactors input),
     fun v => filter_sortByImpactDesc v (rawRiskFactors input)⟩

lemma retryLoop_spec {α : Type} (cfg : APIConfig) (f : ℕ → FetchOutcome α) :
    ∀ remaining attempt : ℕ,
      ∃ k, k ≤ remaining ∧
        (retryLoop cfg f remaining attempt).2 = traceSeg cfg attempt k ∧
        (∀ j, j < k → isRetryableFail (f (attempt + j)) = true) ∧
        (isRetryableFail (f (attempt + k)) = false ∨ k = remaining) := by
  intro remaining
  induction remaining with
  | zero =>
      intro attempt
      refine ⟨0, le_refl 0, ?_, fun j hj => absurd hj (Nat.not_lt_zero j),
        Or.inr rfl⟩
      rcases hf : f attempt with v | s | _ <;>
        simp [retryLoop, hf, traceSeg] <;> split_ifs <;> simp
  | succ r ih =>
      intro attempt
      rcases hf : f attempt with v | s | _
      · refine ⟨0, Nat.zero_le _, ?_,
          fun j hj => absurd hj (Nat.not_lt_zero j), Or.inl ?_⟩
        · simp [retryLoop, hf, traceSeg]
        · rw [Nat.add_zero, hf]; simp [isRetryableFail]
      · by_cases hnr : nonRetryableStatus s
        · refine ⟨0, Nat.zero_le _, ?_,
            fun j hj => absurd hj (Nat.not_lt_zero j), Or.inl ?_⟩
          · simp [retryLoop, hf, hnr, traceSeg]
          · rw [Nat.add_zero, hf]; simp [isRetryableFail, hnr]
        · obtain ⟨k, hk, htr, hfail, hstop⟩ := ih (attempt + 1)
          refine ⟨k + 1, by omega, ?_, ?_, ?_⟩
          · simp [retryLoop, hf, hnr, traceSeg, htr]
          · intro j hj
            cases j with
            | zero => rw [Nat.add_zero, hf]; simp [isRetryableFail, hnr]
            | succ j' =>
                have hj' := hfail j' (by omega)
                have harr : attempt + (j' + 1) = attempt + 1 + j' := by omega
                rw [harr]; exact hj'
          · rcases hstop with h1 | h1
            · refine Or.inl ?_
              have harr : attempt + (k + 1) = attempt + 1 + k := by omega
              rw [harr]; exact h1
            · exact Or.inr (by omega)
      · obtain ⟨k, hk, htr, hfail, hstop⟩ := ih (attempt + 1)
        refine ⟨k + 1, by omega, ?_, ?_, ?_⟩
        · simp [retryLoop, hf, traceSeg, htr]
        · intro j hj
          cases j with
          | zero => rw [Nat.add_zero, hf]; simp [isRetryableFail]
          | succ j' =>
              have hj' := hfail j' (by omega)
              have harr : attempt + (j' + 1) = attempt + 1 + j' := by omega
              rw [harr]; exact hj'
        · rcases hstop with h1 | h1
          · refine Or.inl ?_
            have harr : attempt + (k + 1) = attempt + 1 + k := by omega
            rw [harr]; exact h1
          · exact Or.inr (by omega)

lemma waitsOf_cons_attempt (n : ℕ) (tr : List FetchEvent) :
    waitsOf (FetchEvent.attempt n :: tr) = waitsOf tr := by
  simp [waitsOf]

lemma waitsOf_cons_wait (d : ℕ) (tr : List FetchEvent) :
    waitsOf (FetchEvent.wait d :: tr) = d :: waitsOf tr := by
  simp [waitsOf]

lemma waitsOf_traceSeg (cfg : APIConfig) :
    ∀ k a : ℕ,
      waitsOf (traceSeg cfg a k) =
        (List.range k).map (fun i => cfg.retryDelay * 2 ^ (a + i)) := by
  intro k
  induction k with
  | zero => intro a; simp [traceSeg, waitsOf]
  | succ k ih =>
      intro a
      show waitsOf (FetchEvent.attempt a :: FetchEvent.wait (cfg.retryDelay * 2 ^ a)
        :: traceSeg cfg (a + 1) k) = _
      rw [waitsOf_cons_attempt, waitsOf_cons_wait, ih (a + 1),
        List.range_succ_eq_map, List.map_cons, List.map_map]
      refine congrArg₂ List.cons (by rw [Nat.add_zero]) ?_
      apply List.map_congr_left
      intro i _
      have harr : a + 1 + i = a + (i + 1) := by omega
      rw [harr]
      rfl

lemma attempt_mem_traceSeg (cfg : APIConfig) :
    ∀ k a i : ℕ,
      FetchEvent.attempt i ∈ traceSeg cfg a k ↔ (a ≤ i ∧ i ≤ a + k) := by
  intro k
  induction k with
  | zero => intro a i; simp [traceSeg]; omega
  | succ k ih =>
      intro a i
      simp [traceSeg, ih (a + 1)]
      omega

/-- **C5.** A `fetchWithRetry` run produces attempts `0, 1, …, k` for some
`k ≤ retryAttempts` (so at most `retryAttempts` retries beyond the first
attempt), with the wait before the retry following failed attempt `i`
equal to `retryDelay × 2^i`; and an HTTP failure at a made attempt is
retried iff its status is not a 4xx other than 429 and attempts are not
yet exhausted. -/
theorem fetchWithRetry_spec {α : Type} :
    ∀ (cfg : APIConfig) (f : ℕ → FetchOutcome α),
      (∃ k, k ≤ cfg.retryAttempts ∧
        (fetchWithRetry cfg f).2 = traceSeg cfg 0 k) ∧
      waitsOf (fetchWithRetry cfg f).2 =
        (List.range (waitsOf (fetchWithRetry cfg f).2).length).map
          (fun i => cfg.retryDelay * 2 ^ i) ∧
      (∀ i s, FetchEvent.attempt i ∈ (fetchWithRetry cfg f).2 →
        f i = FetchOutcome.httpError s →
        (FetchEvent.attempt (i + 1) ∈ (fetchWithRetry cfg f).2 ↔
          (nonRetryableStatus s = false ∧ i < cfg.retryAttempts))) := by
  intro cfg f
  obtain ⟨k, hk, htr, hfail, hstop⟩ := retryLoop_spec cfg f cfg.retryAttempts 0
  have htr' : (fetchWithRetry cfg f).2 = traceSeg cfg 0 k := htr
  refine ⟨⟨k, hk, htr'⟩, ?_, ?_⟩
  · rw [htr', waitsOf_traceSeg, List.length_map, List.length_range]
    apply List.map_congr_left
    intro i _
    rw [Nat.zero_add]
  · intro i s hi hfi
    rw [htr'] at hi
    rw [htr', attempt_mem_traceSeg] at *
    constructor
    · intro hmem
      have hik : i < k := by omega
      have hret := hfail i hik
      rw [Nat.zero_add, hfi] at hret
      simp only [isRetryableFail, Bool.not_eq_true'] at hret
      exact ⟨hret, by omega⟩
    · rintro ⟨hret, hlt⟩
      by_contra hmem
      have hik : i = k := by omega
      rcases hstop with h1 | h1
      · rw [Nat.zero_add, ← hik, hfi] at h1
        simp [isRetryableFail, hret] at h1
      · omega

/-- Witness for C5: with `retryAttempts = 2` and every attempt answering
HTTP 500, a second attempt is made. -/
theorem fetchWithRetry_spec_witness :
    FetchEvent.attempt 1 ∈
      (fetchWithRetry ⟨"", 1000, 2, 100⟩
        ((fun _ => FetchOutcome.httpError 500) : ℕ → FetchOutcome ℕ)).2 := by
  have h := (fetchWithRetry_spec ⟨"", 1000, 2, 100⟩
    ((fun _ => FetchOutcome.httpError 500) : ℕ → FetchOutcome ℕ)).2.2 0 500
    (by decide) rfl
  exact h.mpr ⟨by decide, by decide⟩

/-- The aggregation pass in which every external source fails: each
fetcher observes no usable upstream response and takes its fallback
branch. -/
def allFetchersFail : FetcherOutcomes :=
  { climate := none, worldBank := none, occupationFails := true
    crimeFails := true, news := none }

/-- **C2.** When every external data source fails, `collectAllData` (a
total function — per-fetcher failures are absorbed as fallbacks, so the
pipeline never throws) still returns a populated result: the fallback
climate values, fallback death/crime rates, a computed city health index,
and a nonempty alert list; and `dataQuality.overall = poor`. -/
theorem collectAllData_all_sources_failed :
    ∀ (city occupation : String) (age : ℚ),
      (collectAllData city occupation age allFetchersFail).dataQuality.overall
          = Quality.poor ∧
      (collectAllData city occupation age allFetchersFail).environmental.aqi = 150 ∧
      (collectAllData city occupation age allFetchersFail).environmental.temperature = 30 ∧
      (collectAllData city occupation age allFetchersFail).environmental.humidity = 65 ∧
      (collectAllData city occupation age allFetchersFail).environmental.climateRisk
          = "Moderate" ∧
      (collectAllData city occupation age allFetchersFail).statistical.deathRate = 7.3 ∧
      (collectAllData city occupation age allFetchersFail).statistical.crimeRate = 300 ∧
      (collectAllData city occupation age allFetchersFail).statistical.occupationDeathRate
          = 5 ∧
      (collectAllData city occupation age allFetchersFail).statistical.cityHealthIndex
          = 75 ∧
      (collectAllData city occupation age allFetchersFail).healthAlerts ≠ [] := by
  intro city occupation age
  refine ⟨?_, rfl, rfl, rfl, rfl, rfl, rfl, ?_, ?_, ?_⟩
  · show overallOfPercentage
      (((countTrue [includesSub "Fallback estimate" "Real-time",
          includesSub "Fallback estimate" "Real-time",
          (("low" : String) == "high"), (("low" : String) == "high")] : ℕ) : ℚ)
        / 4 * 100) = Quality.poor
    rw [show countTrue [includesSub "Fallback estimate" "Real-time",
          includesSub "Fallback estimate" "Real-time",
          (("low" : String) == "high"), (("low" : String) == "high")] = 0 from by decide]
    norm_num [overallOfPercentage]
  · show (5.0 : ℚ) = 5
    norm_num
  · show calculateCityHealthIndex 150 300 30 = 75
    unfold calculateCityHealthIndex aqiDeduction crimeRateDeduction
      temperatureDeduction
    norm_num
  · show generateFallbackAlerts city ≠ []
    simp [generateFallbackAlerts]

/-- Following the claim's words (for comparison with the code): the
`overall` grade computed from "the fraction of the aggregator's fetchers
that returned live (non-fallback) data", mapped through the same 75/50/25
thresholds. -/
def claimOverallOfLiveFetchers (liveCount totalFetchers : ℕ) : Quality :=
  overallOfPercentage (((liveCount : ℚ) / (totalFetchers : ℚ)) * 100)

/-- How many of the five fetchers of one aggregation pass returned live
(non-fallback) data. -/
def liveFetcherCount (w : FetcherOutcomes) : ℕ :=
  countTrue [w.climate.isSome, w.worldBank.isSome, !w.occupationFails,
    !w.crimeFails, w.news.isSome]

/-- An aggregation pass in which exactly one fetcher (climate, with a
live AQICN reading) returns live data and the other four fall back. -/
def oneLiveWorld : FetcherOutcomes :=
  { climate := some { temperature2m := 30, relativeHumidity := 60
                      aqicn := some { status := "ok", aqi := 160 }
                      weatherMain := none }
    worldBank := none, occupationFails := true, crimeFails := true
    news := none }

/-- **C8, counterexample.** With one live fetcher out of five, the code
grades the data `good` (it counts 2 of its 4 indicators, both from the
climate fetcher), while the claim's fraction of live fetchers — 1/5, or
1/4 even if the health-alert fetcher is not counted — maps to `poor`
(resp. `fair`).  So `overall` is not computed from the fraction of
fetchers that returned live data. -/
theorem dataQuality_overall_counterexample :
    liveFetcherCount oneLiveWorld = 1 ∧
    (fetchAllRealTimeData "Delhi" "Teacher" 30 oneLiveWorld).dataQuality.overall
        = Quality.good ∧
    claimOverallOfLiveFetchers 1 5 = Quality.poor ∧
    claimOverallOfLiveFetchers 1 4 = Quality.fair := by
  refine ⟨by decide, ?_, ?_, ?_⟩
  · show overallOfPercentage
      (((countTrue [includesSub "Open-Meteo (Real-time)" "Real-time",
          includesSub "AQICN (Real-time)" "Real-time",
          (("low" : String) == "high"), (("low" : String) == "high")] : ℕ) : ℚ)
        / 4 * 100) = Quality.good
    rw [show countTrue [includesSub "Open-Meteo (Real-time)" "Real-time",
          includesSub "AQICN (Real-time)" "Real-time",
          (("low" : String) == "high"), (("low" : String) == "high")] = 2 from by decide]
    norm_num [overallOfPercentage]
  · unfold claimOverallOfLiveFetchers
    norm_num [overallOfPercentage]
  · unfold claimOverallOfLiveFetchers
    norm_num [overallOfPercentage]

/-- The four real-time indicators the source counts. -/
def realTimeIndicators (rt : RealTimeData) : List Bool :=
  [includesSub rt.climate.sources.weather "Real-time",
   includesSub rt.climate.sources.aqi "Real-time",
   rt.deathRate.confidence == "high",
   rt.occupationDeathRate.confidence == "high"]

/-- The five provenance labels whose `Set` size the source reports. -/
def provenanceLabels (rt : RealTimeData) : List String :=
  [rt.climate.sources.weather, rt.climate.sources.aqi, rt.deathRate.source,
   rt.occupationDeathRate.source, rt.crime.source]

/-- The amended grading rule, stated over the indicator count directly:
at least 3 of 4 → excellent, at least 2 → good, at least 1 → fair,
else poor (equivalent to the 75/50/25 percentage thresholds). -/
def amendedOverallOfIndicators (n : ℕ) : Quality :=
  if 3 ≤ n then .excellent
  else if 2 ≤ n then .good
  else if 1 ≤ n then .fair
  else .poor

lemma overall_band (n : ℕ) (hn : n ≤ 4) :
    overallOfPercentage ((n : ℚ) / 4 * 100) = amendedOverallOfIndicators n := by
  interval_cases n <;> norm_num [overallOfPercentage, amendedOverallOfIndicators]

/-- **C8, amended.** `DataQuality.overall` is computed from the count of
the four real-time indicators (weather label marked Real-time, AQI label
marked Real-time, death-rate confidence high, occupation-death-rate
confidence high) — ≥3 → excellent, ≥2 → good, ≥1 → fair, else poor — and
the reported source count equals the number of distinct labels among the
five provenance labels (weather, AQI, death rate, occupation death rate,
crime). -/
theorem dataQuality_overall_amended :
    ∀ (city occupation : String) (age : ℚ) (w : FetcherOutcomes),
      (fetchAllRealTimeData city occupation age w).dataQuality.overall =
        amendedOverallOfIndicators
          (countTrue (realTimeIndicators
            (fetchAllRealTimeData city occupation age w))) ∧
      (fetchAllRealTimeData city occupation age w).dataQuality.sources =
        (provenanceLabels
          (fetchAllRealTimeData city occupation age w)).dedup.length := by
  intro city occupation age w
  constructor
  · show overallOfPercentage
      ((countTrue (realTimeIndicators
        (fetchAllRealTimeData city occupation age w)) : ℚ) / 4 * 100) = _
    refine overall_band _ ?_
    have h := List.length_filter_le (id : Bool → Bool)
      (realTimeIndicators (fetchAllRealTimeData city occupation age w))
    simpa [countTrue, realTimeIndicators] using h
  · rfl

lemma mapGet_mapDelete_ne {α : Type} (m : CacheMap α) (k k' : String)
    (h : k' ≠ k) : mapGet (mapDelete m k) k' = mapGet m k' := by
  induction m with
  | nil => rfl
  | cons p rest ih =>
      obtain ⟨k0, e0⟩ := p
      simp only [mapDelete]
      split_ifs with h0
      · simp only [mapGet]
        split_ifs with h1
        · exact absurd (h1 ▸ h0) h
        · rfl
      · simp only [mapGet]
        split_ifs with h1
        · rfl
        · exact ih

lemma mapGet_eq_none_of_not_mem {α : Type} (m : CacheMap α) (k : String)
    (h : k ∉ m.map Prod.fst) : mapGet m k = none := by
  induction m with
  | nil => rfl
  | cons p rest ih =>
      obtain ⟨k0, e0⟩ := p
      simp only [List.map_cons, List.mem_cons] at h
      push_neg at h
      simp only [mapGet]
      rw [if_neg (fun he => h.1 he.symm)]
      exact ih h.2

lemma mapGet_mapDelete_self {α : Type} (m : CacheMap α) (k : String)
    (h : (m.map Prod.fst).Nodup) : mapGet (mapDelete m k) k = none := by
  induction m with
  | nil => rfl
  | cons p rest ih =>
      obtain ⟨k0, e0⟩ := p
      simp only [List.map_cons, List.nodup_cons] at h
      simp only [mapDelete]
      split_ifs with h0
      · exact mapGet_eq_none_of_not_mem rest k (by rw [← h0]; exact h.1)
      · simp only [mapGet]
        rw [if_neg h0]
        exact ih h.2

lemma mapGet_mapSet_self {α : Type} (m : CacheMap α) (k : String)
    (e : CacheEntry α) : mapGet (mapSet m k e) k = some e := by
  induction m with
  | nil => simp [mapSet, mapGet]
  | cons p rest ih =>
      obtain ⟨k0, e0⟩ := p
      simp only [mapSet]
      split_ifs with h0
      · simp [mapGet]
      · simp only [mapGet]
        rw [if_neg h0]
        exact ih

/-- A cache whose only entry, under `"k"`, is already expired at time
2000 (stored at 0 with a 1-second TTL). -/
def expiredEntryCache : CacheMap ℤ := [("k", { data := 7, timestamp := 0, ttl := 1 })]

/-- **C10, counterexample.** On a rejected producer the rejection does
propagate and nothing is stored, but the cache state is *not* always
unchanged: a lookup that finds an expired entry under `cacheKey` purges
it, so the state after the call differs from the state before. -/
theorem withCache_reject_counterexample :
    (withCache expiredEntryCache 2000 "k" 3600 (Except.error (0 : ℕ))).1
        = Except.error 0 ∧
    (withCache expiredEntryCache 2000 "k" 3600 (Except.error (0 : ℕ))).2
        ≠ expiredEntryCache := by
  have hg : mapGet expiredEntryCache "k"
      = some { data := 7, timestamp := 0, ttl := 1 } := by
    simp [expiredEntryCache, mapGet]
  have hd : mapDelete expiredEntryCache "k" = [] := by
    simp [expiredEntryCache, mapDelete]
  have hexp : cacheGet expiredEntryCache (2000 : ℚ) "k" = (none, ([] : CacheMap ℤ)) := by
    simp only [cacheGet, hg, hd]
    norm_num
  constructor
  · simp only [withCache, hexp]
  · simp only [withCache, hexp]
    simp [expiredEntryCache]

/-- **C10, amended.** For a well-formed cache (unique keys): if the
producer is consulted (cache miss, including an expired entry) and it
rejects, the rejection propagates, afterwards no entry is stored under
`cacheKey` (an expired entry there having been lazily purged), and every
other key is untouched; and an entry is present under `cacheKey` after
the call only if the producer resolved (and its value was stored) or an
unexpired entry was already cached there. -/
theorem withCache_reject_no_store :
    ∀ (ε α : Type) (m : CacheMap α) (now : ℚ) (key : String) (ttl : ℚ),
      (m.map Prod.fst).Nodup →
      (∀ e : ε, (cacheGet m now key).1 = none →
        (withCache m now key ttl (Except.error e)).1 = Except.error e ∧
        mapGet (withCache m now key ttl (Except.error e)).2 key = none ∧
        (∀ k', k' ≠ key →
          mapGet (withCache m now key ttl (Except.error e)).2 k' = mapGet m k')) ∧
      (∀ (r : Except ε α) (entry : CacheEntry α),
        mapGet (withCache m now key ttl r).2 key = some entry →
        (∃ v, r = Except.ok v ∧ entry = { data := v, timestamp := now, ttl := ttl }) ∨
        mapGet m key = some entry) := by
  intro ε α m now key ttl hm
  constructor
  · intro e hmiss
    rcases hg : mapGet m key with _ | entry
    · refine ⟨?_, ?_, ?_⟩
      · simp [withCache, cacheGet, hg]
      · simp [withCache, cacheGet, hg]
      · intro k' _
        simp [withCache, cacheGet, hg]
    · have hexp : now - entry.timestamp > entry.ttl * 1000 := by
        by_contra hne
        simp only [cacheGet, hg, if_neg hne] at hmiss
        exact Option.noConfusion hmiss
      refine ⟨?_, ?_, ?_⟩
      · simp [withCache, cacheGet, hg, hexp]
      · simp [withCache, cacheGet, hg, hexp, mapGet_mapDelete_self m key hm]
      · intro k' hk'
        simp [withCache, cacheGet, hg, hexp, mapGet_mapDelete_ne m key k' hk']
  · intro r entry hget
    rcases hg : mapGet m key with _ | entry0
    · rcases r with e | v
      · simp only [withCache, cacheGet, hg] at hget
        exact Option.noConfusion hget
      · simp only [withCache, cacheGet, hg, cacheSet] at hget
        rw [mapGet_mapSet_self] at hget
        refine Or.inl ⟨v, rfl, ?_⟩
        injection hget with h
        exact h.symm
    · by_cases hexp : now - entry0.timestamp > entry0.ttl * 1000
      · rcases r with e | v
        · simp only [withCache, cacheGet, hg, if_pos hexp] at hget
          rw [mapGet_mapDelete_self m key hm] at hget
          exact Option.noConfusion hget
        · simp only [withCache, cacheGet, hg, if_pos hexp, cacheSet] at hget
          rw [mapGet_mapSet_self] at hget
          refine Or.inl ⟨v, rfl, ?_⟩
          injection hget with h
          exact h.symm
      · simp only [withCache, cacheGet, hg, if_neg hexp] at hget
        exact Or.inr hget

/-- Witness for C10 at the empty cache: a rejected producer propagates
and stores nothing. -/
theorem withCache_reject_no_store_witness :
    (withCache ([] : CacheMap ℤ) 0 "k" 1 (Except.error (0 : ℕ))).1
        = Except.error 0 ∧
    mapGet (withCache ([] : CacheMap ℤ) 0 "k" 1 (Except.error (0 : ℕ))).2 "k"
        = none := by
  have h := (withCache_reject_no_store ℕ ℤ [] 0 "k" 1 (by simp)).1 0 rfl
  exact ⟨h.1, h.2.1⟩

end CareFund
